import Mathlib

/-!
Shallow embedding of the RAGnarokAI serverless document pipeline
(`src/backend/src`): the DynamoDB metadata-store utilities
(`utils/dynamodb.py`) and the upload / extract / query / summarize /
documents request handlers.

Modelling conventions:
* DynamoDB items are modelled as a `Doc` record whose non-key attributes are
  optional; the table is a list of items keyed by `documentId`.
  `update_item` has DynamoDB upsert semantics (creates the item when absent),
  `put_item` overwrites the item with the same key.
* Environment effects are threaded as explicit parameters: generated UUIDs and
  ISO timestamps are `String` arguments, the Textract adapter is a function
  `String → OcrOutcome`, the Bedrock adapter a function argument, and the
  success of the store operation behind the try/except in
  `add_query_to_history` is a `Bool` argument.
* Python floats carry OCR confidence values; the only property of the pair
  `str`/`float` the program relies on is that `float(str(x)) == x`, so floats
  are modelled as `ℚ` with an injective rendering `pyStr` and a parser
  `pyFloat` proved to be its left inverse.  The digit format of the rendering
  is immaterial to every claim.
* Python truthiness of an optional string attribute (`if not x`) is `truthy`:
  the attribute is present and non-empty.
-/

/-- Python truthiness of an optional string: present and non-empty. -/
def truthy : Option String → Bool
  | some s => s != ""
  | none => false

/-- Python slicing `text[:n]` by code points. -/
def pyTake (s : String) (n : Nat) : String := String.mk (s.data.take n)

/-- Model of Python `str.strip()`: drop leading and trailing whitespace. -/
def pyStrip (s : String) : String :=
  String.mk (((s.data.dropWhile Char.isWhitespace).reverse.dropWhile Char.isWhitespace).reverse)

/-- Base-10 digits of a natural number, little-endian, with explicit fuel so
that the definition is structural. -/
def natDigitsAux : Nat → Nat → List Nat
  | 0, _ => []
  | _ + 1, 0 => []
  | fuel + 1, n + 1 => (n + 1) % 10 :: natDigitsAux fuel ((n + 1) / 10)

/-- Base-10 digits of a natural number, little-endian. -/
def natDigits (n : Nat) : List Nat := natDigitsAux n n

/-- Value of a little-endian base-10 digit list. -/
def ofDigitsNat : List Nat → Nat
  | [] => 0
  | d :: ds => d + 10 * ofDigitsNat ds

/-- Numeric value of a decimal digit character. -/
def charVal (c : Char) : Nat := c.toNat - 48

/-- Decimal rendering of a natural number as characters (big-endian). -/
def natChars (n : Nat) : List Char := ((natDigits n).map Nat.digitChar).reverse

/-- Parse a big-endian decimal digit string. -/
def parseNatChars (l : List Char) : Nat := ofDigitsNat (l.reverse.map charVal)

/-- Model of Python `str` on a float value (stored by the program in DynamoDB,
which does not support floats).  Injective rendering of a rational. -/
def pyStr (q : ℚ) : String :=
  String.mk ((if q.num < 0 then ['-'] else []) ++ natChars q.num.natAbs ++ '/' :: natChars q.den)

/-- Parse the unsigned part of a `pyStr` rendering. -/
def parseRatChars (l : List Char) : ℚ :=
  match l.dropWhile (fun c => c != '/') with
  | _ :: den => (parseNatChars (l.takeWhile (fun c => c != '/')) : ℚ) / (parseNatChars den : ℚ)
  | [] => (parseNatChars l : ℚ)

/-- Model of Python `float` on a string produced by `pyStr`; left inverse of
`pyStr` (as `float(str(x)) == x` in Python). -/
def pyFloat (s : String) : ℚ :=
  if s.data.head? = some '-' then -(parseRatChars s.data.tail) else parseRatChars s.data

/-- One entry of a document record query history (`add_query_to_history`). -/
structure QueryEntry where
  question : String
  answer : String
  timestamp : String
deriving Repr, DecidableEq

/-- A DynamoDB document item.  `documentId` is the table key; every other
attribute may be absent (the program creates partial items through the upsert
semantics of `update_item`). -/
structure Doc where
  documentId : String
  userId : Option String := none
  filename : Option String := none
  s3Key : Option String := none
  contentType : Option String := none
  fileSize : Option Nat := none
  status : Option String := none
  createdAt : Option String := none
  updatedAt : Option String := none
  extractedText : Option String := none
  wordCount : Option Nat := none
  ocrConfidence : Option String := none
  textLength : Option Nat := none
  summary : Option String := none
  errorMessage : Option String := none
  queryHistory : Option (List QueryEntry) := none
deriving Repr, DecidableEq

/-- The DynamoDB documents table. -/
abbrev Store := List Doc

/-- A fresh item holding only the key, as created by an upserting
`update_item` on an absent key. -/
def blankDoc (id : String) : Doc := { documentId := id }

/-- `get_document` (dynamodb.py): `get_item` by key. -/
def get_document (store : Store) (document_id : String) : Option Doc :=
  store.find? (fun d => d.documentId == document_id)

/-- DynamoDB `put_item`: overwrite the item with the same key, or add it. -/
def putItem (store : Store) (doc : Doc) : Store :=
  if store.any (fun d => d.documentId == doc.documentId) then
    store.map (fun d => if d.documentId == doc.documentId then doc else d)
  else store ++ [doc]

/-- DynamoDB `update_item`: modify the item with the given key, creating a
blank one first when absent (upsert semantics). -/
def upsert (store : Store) (id : String) (f : Doc → Doc) : Store :=
  if store.any (fun d => d.documentId == id) then
    store.map (fun d => if d.documentId == id then f d else d)
  else store ++ [f (blankDoc id)]

/-- The metadata attributes passed to `update_document_status` at its call
sites (`store_extracted_text`, `store_summary`, the FAILED transitions). -/
inductive MetaField where
  | extractedText (s : String)
  | wordCount (n : Nat)
  | ocrConfidence (s : String)
  | textLength (n : Nat)
  | summary (s : String)
  | errorMessage (s : String)
deriving Repr, DecidableEq

/-- Apply one metadata attribute of the update expression. -/
def applyMeta (d : Doc) : MetaField → Doc
  | MetaField.extractedText s => { d with extractedText := some s }
  | MetaField.wordCount n => { d with wordCount := some n }
  | MetaField.ocrConfidence s => { d with ocrConfidence := some s }
  | MetaField.textLength n => { d with textLength := some n }
  | MetaField.summary s => { d with summary := some s }
  | MetaField.errorMessage s => { d with errorMessage := some s }

/-- The fixed part of the `update_document_status` update expression:
`SET #status = :status, updatedAt = :updatedAt`. -/
def setStatus (d : Doc) (status timestamp : String) : Doc :=
  { d with status := some status, updatedAt := some timestamp }

/-- `update_document_status` (dynamodb.py): set status and `updatedAt`, merge
in the optional metadata attributes; upserts when the item is absent. -/
def update_document_status (store : Store) (document_id status : String)
    (metadata : List MetaField) (timestamp : String) : Store :=
  upsert store document_id (fun d => metadata.foldl applyMeta (setStatus d status timestamp))

/-- The item built by `create_document` (dynamodb.py); `document_id` is the
freshly generated `uuid.uuid4()` and `timestamp` the current time. -/
def create_document (user_id filename s3_key content_type : String) (file_size : Nat)
    (document_id timestamp : String) : Doc :=
  { documentId := document_id, userId := some user_id, filename := some filename,
    s3Key := some s3_key, contentType := some content_type, fileSize := some file_size,
    status := some "UPLOADED", createdAt := some timestamp, updatedAt := some timestamp }

/-- `store_extracted_text` (dynamodb.py): status EXTRACTED with the text
truncated to 50000 characters, the word count, the confidence rendered as a
string, and the full text length. -/
def store_extracted_text (store : Store) (document_id : String) (text : String)
    (word_count : Nat) (confidence : ℚ) (timestamp : String) : Store :=
  update_document_status store document_id "EXTRACTED"
    [MetaField.extractedText (pyTake text 50000), MetaField.wordCount word_count,
     MetaField.ocrConfidence (pyStr confidence), MetaField.textLength text.length]
    timestamp

/-- `store_summary` (dynamodb.py): status COMPLETED with the summary. -/
def store_summary (store : Store) (document_id summary timestamp : String) : Store :=
  update_document_status store document_id "COMPLETED" [MetaField.summary summary] timestamp

/-- `add_query_to_history` (dynamodb.py).  `append_ok` is whether the atomic
`list_append` update succeeds; on failure the except branch overwrites the
history with a singleton list. -/
def add_query_to_history (store : Store) (document_id question answer timestamp : String)
    (append_ok : Bool) : Store :=
  if append_ok then
    upsert store document_id (fun d =>
      { d with queryHistory := some (d.queryHistory.getD [] ++ [⟨question, answer, timestamp⟩]) })
  else
    upsert store document_id (fun d =>
      { d with queryHistory := some [⟨question, answer, timestamp⟩] })

/-- `delete_document` (dynamodb.py): `delete_item` by key. -/
def delete_document (store : Store) (document_id : String) : Store :=
  store.filter (fun d => d.documentId != document_id)

/-- The resolved identity inputs of a request (`get_user_id` in upload.py and
documents.py): optional Cognito authorizer claims (with optional `sub`) and
the optional `X-User-Id` header. -/
structure Identity where
  claims : Option (Option String) := none
  headerUserId : Option String := none
deriving Repr, DecidableEq

/-- `get_user_id`: prefer the claims subject, then the header, then
`anonymous`. -/
def get_user_id (idn : Identity) : String :=
  match idn.claims with
  | some sub => sub.getD "anonymous"
  | none => idn.headerUserId.getD "anonymous"

/-- `ALLOWED_TYPES` (upload.py). -/
def ALLOWED_TYPES : List String :=
  ["application/pdf", "image/png", "image/jpeg", "image/jpg", "text/plain"]

/-- The date path produced by `datetime.utcnow().strftime` with format
`%Y/%m/%d` (upload.py line 59): three slash-separated segments. -/
def uploadDatePath (yyyy mm dd : String) : String := yyyy ++ "/" ++ mm ++ "/" ++ dd

/-- The storage key built by `handle_get_presigned_url` (upload.py line 60):
`documents/{userId}/{datePath}/{documentId}/{filename}`. -/
def uploadS3Key (user_id datePath document_id filename : String) : String :=
  "documents/" ++ user_id ++ "/" ++ datePath ++ "/" ++ document_id ++ "/" ++ filename

/-- Response of the upload-slot operation. -/
structure PresignedOut where
  code : Nat
  error : Option String := none
  documentId : Option String := none
  s3Key : Option String := none
  expiresIn : Option Nat := none
deriving Repr, DecidableEq

/-- `handle_get_presigned_url` (upload.py).  `content_type` is the query
parameter after its `application/pdf` default; `document_id` the generated
`uuid.uuid4()`; `datePath` the formatted current date. -/
def handle_get_presigned_url (filename : Option String) (content_type : String)
    (idn : Identity) (document_id datePath : String) : PresignedOut :=
  if truthy filename = false then { code := 400, error := some "filename is required" }
  else if ALLOWED_TYPES.contains content_type = false then
    { code := 400, error := some "Invalid content type" }
  else
    { code := 200, documentId := some document_id,
      s3Key := some (uploadS3Key (get_user_id idn) datePath document_id (filename.getD "")),
      expiresIn := some 3600 }

/-- The JSON body fields read by `handle_upload_request`. -/
structure UploadBody where
  documentId : Option String := none
  s3Key : Option String := none
  filename : Option String := none
  contentType : Option String := none
  fileSize : Option Nat := none
deriving Repr, DecidableEq

/-- A finalize-upload request: whether the JSON body parsed, the body fields,
and the identity inputs. -/
structure UploadEvent where
  bodyValid : Bool := true
  body : UploadBody := {}
  identity : Identity := {}
deriving Repr, DecidableEq

/-- Response of the finalize-upload operation, together with the store after
the call. -/
structure FinalizeOut where
  code : Nat
  error : Option String := none
  message : Option String := none
  document : Option Doc := none
  store : Store
deriving Repr, DecidableEq

/-- `handle_upload_request` (upload.py): validate the body (Python `all`
truthiness), check the object exists in S3, then `create_document`.
`s3_exists` models `head_object`; `document_id` is the fresh `uuid.uuid4()`
generated inside `create_document` and `timestamp` the current time. -/
def handle_upload_request (store : Store) (e : UploadEvent) (s3_exists : String → Bool)
    (document_id timestamp : String) : FinalizeOut :=
  if e.bodyValid = false then { code := 400, error := some "Invalid JSON body", store := store }
  else if !(truthy e.body.documentId && truthy e.body.s3Key && truthy e.body.filename) then
    { code := 400, error := some "documentId, s3Key, and filename are required", store := store }
  else if s3_exists (e.body.s3Key.getD "") = false then
    { code := 404, error := some "Document not found in S3", store := store }
  else
    let doc := create_document (get_user_id e.identity) (e.body.filename.getD "")
      (e.body.s3Key.getD "") (e.body.contentType.getD "application/pdf")
      (e.body.fileSize.getD 0) document_id timestamp
    { code := 201, message := some "Document uploaded successfully",
      document := some doc, store := putItem store doc }

/-- Outcome of `extract_text_from_s3` (utils/textract.py): the extracted text,
word count and average confidence on success, or the raised error message. -/
inductive OcrOutcome where
  | ok (text : String) (word_count : Nat) (confidence : ℚ)
  | err (msg : String)
deriving Repr, DecidableEq

/-- Model of Python `str.split(sep)` with an explicit one-character separator:
splits on every occurrence, keeping empty parts. -/
def pySplit (s : String) (sep : Char) : List String :=
  (s.data.foldr
    (fun c acc =>
      if c = sep then [] :: acc
      else match acc with
        | g :: gs => (c :: g) :: gs
        | [] => [[c]])
    [[]]).map String.mk

/-- Document-id derivation of `handle_s3_event` (extract.py lines 50-55):
`parts = key.split('/')`, take `parts[3]` when at least 4 parts exist,
otherwise skip the record. -/
def deriveDocumentId (key : String) : Option String :=
  (pySplit key '/')[3]?

/-- Processing of one record of an S3 event by `handle_s3_event` (extract.py):
derive the id (or skip), transition to PROCESSING, run Textract, then either
`store_extracted_text` or transition to FAILED with the error message.
`t1`/`t2` are the timestamps of the two status updates. -/
def handle_s3_event_record (store : Store) (key : String) (ocr : String → OcrOutcome)
    (t1 t2 : String) : Store :=
  match deriveDocumentId key with
  | none => store
  | some document_id =>
    let store1 := update_document_status store document_id "PROCESSING" [] t1
    match ocr key with
    | OcrOutcome.ok text word_count confidence =>
      store_extracted_text store1 document_id text word_count confidence t2
    | OcrOutcome.err msg =>
      update_document_status store1 document_id "FAILED" [MetaField.errorMessage msg] t2

/-- `handle_s3_event` over the batched records (event keys are taken after the
`urllib.parse.unquote_plus` transport decoding). -/
def handle_s3_event (store : Store) (keys : List String) (ocr : String → OcrOutcome)
    (t1 t2 : String) : Store :=
  keys.foldl (fun s k => handle_s3_event_record s k ocr t1 t2) store

/-- Response of the synchronous extraction request, the store after the call,
and whether Textract was invoked. -/
structure ExtractOut where
  code : Nat
  error : Option String := none
  message : Option String := none
  documentId : Option String := none
  text : Option String := none
  wordCount : Option Nat := none
  confidence : Option ℚ := none
  cached : Option Bool := none
  store : Store
  ocrCalled : Bool := false
deriving Repr, DecidableEq

/-- `handle_api_request` (extract.py): cached short-circuit when the status is
EXTRACTED and the text attribute is truthy, otherwise PROCESSING, Textract,
and EXTRACTED or FAILED.  A missing `s3Key` raises a KeyError inside the try
block, which the except branch records as a FAILED transition. -/
def handle_api_request (store : Store) (documentId : Option String)
    (ocr : String → OcrOutcome) (t1 t2 : String) : ExtractOut :=
  if truthy documentId = false then
    { code := 400, error := some "documentId is required", store := store }
  else
    let document_id := documentId.getD ""
    match get_document store document_id with
    | none => { code := 404, error := some "Document not found", store := store }
    | some document =>
      if document.status == some "EXTRACTED" && truthy document.extractedText then
        { code := 200, documentId := some document_id,
          text := some (document.extractedText.getD ""),
          wordCount := some (document.wordCount.getD 0),
          confidence := some (match document.ocrConfidence with
            | some s => pyFloat s
            | none => 0),
          cached := some true, store := store }
      else
        let store1 := update_document_status store document_id "PROCESSING" [] t1
        match document.s3Key with
        | none =>
          { code := 500, error := some "Text extraction failed",
            message := some "KeyError: s3Key",
            store := update_document_status store1 document_id "FAILED"
              [MetaField.errorMessage "KeyError: s3Key"] t2 }
        | some s3_key =>
          match ocr s3_key with
          | OcrOutcome.ok text word_count confidence =>
            { code := 200, documentId := some document_id, text := some text,
              wordCount := some word_count, confidence := some confidence,
              cached := some false,
              store := store_extracted_text store1 document_id text word_count confidence t2,
              ocrCalled := true }
          | OcrOutcome.err msg =>
            { code := 500, error := some "Text extraction failed", message := some msg,
              store := update_document_status store1 document_id "FAILED"
                [MetaField.errorMessage msg] t2,
              ocrCalled := true }

/-- A question request (query.py): the path parameter, whether the JSON body
parsed, the `question` body field, and the identity inputs carried by the
event (this handler never reads them). -/
structure QueryEvent where
  documentId : Option String := none
  bodyValid : Bool := true
  question : Option String := none
  identity : Identity := {}
deriving Repr, DecidableEq

/-- Result of `answer_question` (utils/bedrock.py): the answer text and the
lexically derived confidence label. -/
structure LlmAnswer where
  answer : String
  confidence : String
deriving Repr, DecidableEq

/-- Response of the query handler, the store after the call, and whether the
Bedrock adapter was invoked. -/
structure QueryOut where
  code : Nat
  error : Option String := none
  hint : Option String := none
  documentId : Option String := none
  question : Option String := none
  answer : Option String := none
  confidence : Option String := none
  store : Store
  llmCalled : Bool := false
deriving Repr, DecidableEq

/-- `lambda_handler` (query.py): validation, document lookup, extracted-text
check, Bedrock call, history append.  `llm` models `answer_question`,
`append_ok` whether the atomic history append succeeds. -/
def query_lambda_handler (store : Store) (e : QueryEvent)
    (llm : String → String → LlmAnswer) (timestamp : String) (append_ok : Bool) : QueryOut :=
  if truthy e.documentId = false then
    { code := 400, error := some "documentId is required", store := store }
  else if e.bodyValid = false then
    { code := 400, error := some "Invalid JSON body", store := store }
  else
    let document_id := e.documentId.getD ""
    let question := pyStrip (e.question.getD "")
    if question == "" then
      { code := 400, error := some "question is required in request body", store := store }
    else if question.length > 1000 then
      { code := 400, error := some "Question too long (max 1000 characters)", store := store }
    else
      match get_document store document_id with
      | none => { code := 404, error := some "Document not found", store := store }
      | some document =>
        if truthy document.extractedText = false then
          { code := 400, error := some "Document text has not been extracted yet",
            hint := some "Call the extract endpoint first", store := store }
        else
          let result := llm (document.extractedText.getD "") question
          { code := 200, documentId := some document_id, question := some question,
            answer := some result.answer, confidence := some result.confidence,
            store := add_query_to_history store document_id question result.answer
              timestamp append_ok,
            llmCalled := true }

/-- A summarize request (summarize.py): path parameter and the parsed
`entities`, `questions`, `maxLength` query parameters. -/
structure SummarizeEvent where
  documentId : Option String := none
  entities : Bool := false
  questions : Bool := false
  maxLength : Nat := 500
deriving Repr, DecidableEq

/-- Response of the summarize handler, the store after the call, and whether
any Bedrock adapter call was made. -/
structure SummarizeOut where
  code : Nat
  error : Option String := none
  hint : Option String := none
  documentId : Option String := none
  summary : Option String := none
  wordCount : Option Nat := none
  cached : Option Bool := none
  entities : Option String := none
  suggestedQuestions : Option (List String) := none
  store : Store
  llmCalled : Bool := false
deriving Repr, DecidableEq

/-- `lambda_handler` (summarize.py).  `llm_summary`, `llm_entities` and
`llm_questions` model `summarize_document`, `extract_key_entities` (its result
rendered opaquely) and `generate_document_questions`. -/
def summarize_lambda_handler (store : Store) (e : SummarizeEvent)
    (llm_summary : String → Nat → String) (llm_entities : String → String)
    (llm_questions : String → List String) (timestamp : String) : SummarizeOut :=
  if truthy e.documentId = false then
    { code := 400, error := some "documentId is required", store := store }
  else
    let document_id := e.documentId.getD ""
    match get_document store document_id with
    | none => { code := 404, error := some "Document not found", store := store }
    | some document =>
      if truthy document.extractedText = false then
        { code := 400, error := some "Document text has not been extracted yet",
          hint := some "Call the extract endpoint first", store := store }
      else if truthy document.summary && !e.entities && !e.questions then
        { code := 200, documentId := some document_id, summary := document.summary,
          cached := some true, store := store }
      else
        let text := document.extractedText.getD ""
        let summary := llm_summary text e.maxLength
        { code := 200, documentId := some document_id, summary := some summary,
          wordCount := some (document.wordCount.getD 0), cached := some false,
          entities := if e.entities then some (llm_entities text) else none,
          suggestedQuestions := if e.questions then some (llm_questions text) else none,
          store := store_summary store document_id summary timestamp,
          llmCalled := true }

/-- Response of the delete handler and the store after the call. -/
structure DeleteOut where
  code : Nat
  error : Option String := none
  message : Option String := none
  documentId : Option String := none
  store : Store
deriving Repr, DecidableEq

/-- `delete_document_handler` (documents.py): validation, lookup, ownership
check (with the `anonymous` wildcard), best-effort S3 delete whose outcome
`s3_delete_ok` is swallowed, then unconditional record deletion. -/
def delete_document_handler (store : Store) (documentId : Option String)
    (idn : Identity) (s3_delete_ok : Bool) : DeleteOut :=
  if truthy documentId = false then
    { code := 400, error := some "documentId is required", store := store }
  else
    let document_id := documentId.getD ""
    match get_document store document_id with
    | none => { code := 404, error := some "Document not found", store := store }
    | some document =>
      let user_id := get_user_id idn
      if document.userId != some user_id && user_id != "anonymous" then
        { code := 403, error := some "Access denied", store := store }
      else
        { code := 200, message := some "Document deleted successfully",
          documentId := some document_id, store := delete_document store document_id }

/-- One observable transition of the documents table, one per state-changing
handler action.  Extraction is split into its two persisted phases (the
PROCESSING write happens before the OCR call returns), and the event-trigger
phase uses the key derivation of `handle_s3_event`. -/
inductive Step : Store → Store → Prop where
  | create (s : Store) (user_id filename s3_key content_type : String) (file_size : Nat)
      (document_id timestamp : String) :
      Step s (putItem s (create_document user_id filename s3_key content_type file_size
        document_id timestamp))
  | extractBeginEvent (s : Store) (key : String) (id : String) (t : String)
      (h : deriveDocumentId key = some id) :
      Step s (update_document_status s id "PROCESSING" [] t)
  | extractBeginApi (s : Store) (id : String) (doc : Doc) (t : String)
      (hdoc : get_document s id = some doc)
      (hnc : (doc.status == some "EXTRACTED" && truthy doc.extractedText) = false) :
      Step s (update_document_status s id "PROCESSING" [] t)
  | extractFinishOk (s : Store) (id text : String) (word_count : Nat) (confidence : ℚ)
      (t : String) :
      Step s (store_extracted_text s id text word_count confidence t)
  | extractFinishErr (s : Store) (id msg t : String) :
      Step s (update_document_status s id "FAILED" [MetaField.errorMessage msg] t)
  | summarize (s : Store) (id : String) (doc : Doc) (summary t : String)
      (hdoc : get_document s id = some doc)
      (htext : truthy doc.extractedText = true) :
      Step s (store_summary s id summary t)
  | query (s : Store) (id : String) (doc : Doc) (question answer t : String)
      (append_ok : Bool) (hdoc : get_document s id = some doc)
      (htext : truthy doc.extractedText = true) :
      Step s (add_query_to_history s id question answer t append_ok)
  | delete (s : Store) (id : String) (doc : Doc) (hdoc : get_document s id = some doc) :
      Step s (delete_document s id)

/-- Stores reachable from the empty table by the program's operations. -/
inductive Reachable : Store → Prop where
  | init : Reachable []
  | step (s s' : Store) : Reachable s → Step s s' → Reachable s'

/-- The invariant stated by the specification: a present `extractedText`
implies status EXTRACTED or COMPLETED. -/
def textImpliesExtractedOrCompleted (s : Store) : Prop :=
  ∀ d ∈ s, d.extractedText.isSome = true →
    (d.status = some "EXTRACTED" ∨ d.status = some "COMPLETED")

/-- The invariant the code actually maintains: a present `extractedText`
implies a status among PROCESSING, EXTRACTED, COMPLETED, FAILED (that is, any
status except the initial UPLOADED), because no transition ever removes the
text attribute. -/
def textStatusInv (s : Store) : Prop :=
  ∀ d ∈ s, d.extractedText.isSome = true →
    (d.status = some "PROCESSING" ∨ d.status = some "EXTRACTED" ∨
     d.status = some "COMPLETED" ∨ d.status = some "FAILED")

/-- A storage key exactly as issued by the upload-slot operation for user u1
on 2024-01-15 with document id doc-42. -/
def cexC1Key : String := uploadS3Key "u1" (uploadDatePath "2024" "01" "15") "doc-42" "report.pdf"

/-- A table holding the finalized record for doc-42 under that key. -/
def cexC1Store : Store :=
  [create_document "u1" "report.pdf" cexC1Key "application/pdf" 2048 "doc-42" "t0"]

/-- The table after the S3 event for that key is processed with a successful
OCR outcome. -/
def cexC1Store2 : Store :=
  handle_s3_event cexC1Store [cexC1Key] (fun _ => OcrOutcome.ok "Hello world" 2 0) "t1" "t2"

/-- A table holding a record with one prior query-history entry. -/
def cexC2Store : Store :=
  [{ documentId := "d1", userId := some "u1", status := some "EXTRACTED",
     extractedText := some "hello",
     queryHistory := some [{ question := "q1", answer := "a1", timestamp := "t1" }] }]

/-- A table holding an extracted document owned by alice. -/
def cexC3Store : Store :=
  [{ documentId := "d1", userId := some "alice", status := some "EXTRACTED",
     extractedText := some "hello" }]

/-- A question request on alice's document whose resolved identity is the
header identity mallory. -/
def cexC3Event : QueryEvent :=
  { documentId := some "d1", question := some "What is this?",
    identity := { headerUserId := some "mallory" } }

/-- A finalize-upload request carrying the identifier issued by the
upload-slot operation. -/
def cexC4Event : UploadEvent :=
  { body := { documentId := some "issued-id", s3Key := some "k1", filename := some "f.pdf",
              fileSize := some 2048 },
    identity := { headerUserId := some "u1" } }

/-- States of a concrete run: create, begin extraction, finish extraction,
summarize, then begin a second extraction (allowed because the status is by
then COMPLETED, not EXTRACTED). -/
def cexC5s1 : Store := putItem [] (create_document "u1" "f.pdf" "k1" "application/pdf" 10 "d1" "t0")

def cexC5s2 : Store := update_document_status cexC5s1 "d1" "PROCESSING" [] "t1"

def cexC5s3 : Store := store_extracted_text cexC5s2 "d1" "hello world" 2 0 "t2"

def cexC5s4 : Store := store_summary cexC5s3 "d1" "a summary" "t3"

def cexC5s5 : Store := update_document_status cexC5s4 "d1" "PROCESSING" [] "t4"

/-- A table holding a record with status EXTRACTED and a present but empty
`extractedText` attribute. -/
def cexC7Store : Store :=
  [{ documentId := "d1", userId := some "u1", s3Key := some "k1",
     status := some "EXTRACTED", extractedText := some "" }]

/-- A table holding a fully extracted record for the cached path. -/
def cexC7CachedStore : Store :=
  [{ documentId := "c1", status := some "EXTRACTED", extractedText := some "hello",
     wordCount := some 2, ocrConfidence := some (pyStr 99) }]

/-- A table holding an extracted record whose stored summary is the empty
string (a possible LLM output). -/
def cexC8StoreA : Store :=
  [{ documentId := "d1", status := some "COMPLETED", extractedText := some "hello world",
     summary := some "" }]

/-- A table holding a record with a summary present but no extracted text. -/
def cexC8StoreB : Store :=
  [{ documentId := "d2", summary := some "a summary" }]

/-- A table holding an extracted record with a non-empty stored summary. -/
def cexC8WStore : Store :=
  [{ documentId := "d3", status := some "COMPLETED", extractedText := some "hello",
     summary := some "old summary" }]

/-- A question request whose question is whitespace only. -/
def cexC9Event : QueryEvent :=
  { documentId := some "d1", question := some "   " }

/-- A table holding a document owned by u9, and the matching identity. -/
def cexC10Store : Store :=
  [{ documentId := "d9", userId := some "u9", s3Key := some "k9",
     status := some "UPLOADED" }]

/-! Helper lemmas: the `pyStr`/`pyFloat` round trip. -/

theorem natDigitsAux_lt (fuel : Nat) : ∀ (n : Nat), ∀ d ∈ natDigitsAux fuel n, d < 10 := by
  induction fuel with
  | zero => intro n d hd; simp [natDigitsAux] at hd
  | succ fuel ih =>
    intro n d hd
    cases n with
    | zero => simp [natDigitsAux] at hd
    | succ m =>
      simp only [natDigitsAux, List.mem_cons] at hd
      rcases hd with rfl | hd
      · exact Nat.mod_lt _ (by omega)
      · exact ih _ d hd

theorem ofDigitsNat_natDigitsAux (fuel : Nat) :
    ∀ (n : Nat), n ≤ fuel → ofDigitsNat (natDigitsAux fuel n) = n := by
  induction fuel with
  | zero => intro n hn; interval_cases n; rfl
  | succ fuel ih =>
    intro n hn
    cases n with
    | zero => rfl
    | succ m =>
      have hdiv : (m + 1) / 10 ≤ fuel := by
        have := Nat.div_lt_self (Nat.succ_pos m) (by omega : 1 < 10)
        omega
      simp only [natDigitsAux, ofDigitsNat, ih _ hdiv]
      omega

theorem ofDigitsNat_natDigits (n : Nat) : ofDigitsNat (natDigits n) = n :=
  ofDigitsNat_natDigitsAux n n le_rfl

theorem charVal_digitChar {d : Nat} (h : d < 10) : charVal (Nat.digitChar d) = d := by
  interval_cases d <;> decide

theorem digitChar_bne_slash {d : Nat} (h : d < 10) : (Nat.digitChar d != '/') = true := by
  interval_cases d <;> decide

theorem digitChar_ne_dash {d : Nat} (h : d < 10) : Nat.digitChar d ≠ '-' := by
  interval_cases d <;> decide

theorem natChars_digit {n : Nat} {c : Char} (hc : c ∈ natChars n) :
    ∃ d, d < 10 ∧ c = Nat.digitChar d := by
  unfold natChars at hc
  rw [List.mem_reverse, List.mem_map] at hc
  obtain ⟨d, hd, rfl⟩ := hc
  exact ⟨d, natDigitsAux_lt n n d hd, rfl⟩

theorem parseNatChars_natChars (n : Nat) : parseNatChars (natChars n) = n := by
  unfold parseNatChars natChars
  rw [List.reverse_reverse, List.map_map]
  have hmap : List.map (charVal ∘ Nat.digitChar) (natDigits n) = List.map id (natDigits n) :=
    List.map_congr_left (fun d hd => charVal_digitChar (natDigitsAux_lt n n d hd))
  rw [hmap, List.map_id]
  exact ofDigitsNat_natDigits n

theorem takeWhile_append_slash (l1 l2 : List Char) (h : ∀ c ∈ l1, (c != '/') = true) :
    (l1 ++ '/' :: l2).takeWhile (fun c => c != '/') = l1 := by
  induction l1 with
  | nil => simp [List.takeWhile_cons]
  | cons c cs ih =>
    have hc := h c (List.mem_cons_self c cs)
    simp only [List.cons_append, List.takeWhile_cons, hc, if_true]
    rw [ih (fun x hx => h x (List.mem_cons_of_mem c hx))]

theorem dropWhile_append_slash (l1 l2 : List Char) (h : ∀ c ∈ l1, (c != '/') = true) :
    (l1 ++ '/' :: l2).dropWhile (fun c => c != '/') = '/' :: l2 := by
  induction l1 with
  | nil => simp [List.dropWhile_cons]
  | cons c cs ih =>
    have hc := h c (List.mem_cons_self c cs)
    simp only [List.cons_append, List.dropWhile_cons, hc, if_true]
    exact ih (fun x hx => h x (List.mem_cons_of_mem c hx))

theorem natChars_bne_slash (n : Nat) : ∀ c ∈ natChars n, (c != '/') = true := by
  intro c hc
  obtain ⟨d, hd, rfl⟩ := natChars_digit hc
  exact digitChar_bne_slash hd

theorem parseRatChars_split (a : Nat) (b : Nat) :
    parseRatChars (natChars a ++ '/' :: natChars b) = (a : ℚ) / (b : ℚ) := by
  unfold parseRatChars
  rw [dropWhile_append_slash _ _ (natChars_bne_slash a)]
  simp only [takeWhile_append_slash _ _ (natChars_bne_slash a)]
  rw [parseNatChars_natChars, parseNatChars_natChars]

theorem pyStr_head_nonneg (q : ℚ) :
    (natChars q.num.natAbs ++ '/' :: natChars q.den).head? ≠ some '-' := by
  cases hnc : natChars q.num.natAbs with
  | nil => simp [hnc]
  | cons c cs =>
    have hc : c ∈ natChars q.num.natAbs := by rw [hnc]; exact List.mem_cons_self c cs
    obtain ⟨d, hd, rfl⟩ := natChars_digit hc
    simp only [List.cons_append, List.head?_cons]
    intro h
    exact digitChar_ne_dash hd (by injection h)

/-- `pyFloat` is a left inverse of `pyStr`: the model satisfies the Python
identity `float(str(x)) == x`. -/
theorem pyFloat_pyStr (q : ℚ) : pyFloat (pyStr q) = q := by
  rcases lt_or_le q.num 0 with hneg | hpos
  · have hdata : (pyStr q).data = '-' :: (natChars q.num.natAbs ++ '/' :: natChars q.den) := by
      unfold pyStr
      rw [if_pos hneg]
      rfl
    unfold pyFloat
    rw [hdata]
    have hcond : ('-' :: (natChars q.num.natAbs ++ '/' :: natChars q.den)).head? = some '-' := rfl
    rw [if_pos hcond, List.tail_cons, parseRatChars_split]
    have habs : ((q.num.natAbs : ℚ)) = -(q.num : ℚ) := by
      rw [Int.cast_natAbs, abs_of_neg hneg]
      push_cast
      ring
    rw [habs, neg_div, neg_neg, Rat.num_div_den]
  · have hdata : (pyStr q).data = natChars q.num.natAbs ++ '/' :: natChars q.den := by
      unfold pyStr
      rw [if_neg (by omega)]
      rfl
    unfold pyFloat
    rw [hdata, if_neg (pyStr_head_nonneg q)]
    rw [parseRatChars_split]
    have habs : ((q.num.natAbs : ℚ)) = (q.num : ℚ) := by
      rw [Int.cast_natAbs, abs_of_nonneg hpos]
    rw [habs, Rat.num_div_den]

/-! Helper lemmas: lookup and membership over the table operations. -/

theorem find?_map_keyed (l : List Doc) (id : String) (f : Doc → Doc)
    (hf : ∀ d, d.documentId = id → (f d).documentId = id) :
    (l.map (fun d => if d.documentId == id then f d else d)).find? (fun d => d.documentId == id)
      = (l.find? (fun d => d.documentId == id)).map f := by
  induction l with
  | nil => rfl
  | cons a t ih =>
    by_cases ha : a.documentId = id
    · have hba : (a.documentId == id) = true := beq_iff_eq.mpr ha
      have hfa : ((f a).documentId == id) = true := beq_iff_eq.mpr (hf a ha)
      simp only [List.map_cons, hba, if_true, List.find?_cons, hfa, Option.map_some']
    · have hba : (a.documentId == id) = false := beq_eq_false_iff_ne.mpr ha
      simp only [List.map_cons, hba, Bool.false_eq_true, if_false, List.find?_cons, ih]

theorem find?_map_keyed_ne (l : List Doc) (id id' : String) (f : Doc → Doc)
    (hf : ∀ d, d.documentId = id → (f d).documentId = id) (hne : id' ≠ id) :
    (l.map (fun d => if d.documentId == id then f d else d)).find? (fun d => d.documentId == id')
      = l.find? (fun d => d.documentId == id') := by
  induction l with
  | nil => rfl
  | cons a t ih =>
    by_cases ha : a.documentId = id
    · have hba : (a.documentId == id) = true := beq_iff_eq.mpr ha
      have hfa : ((f a).documentId == id') = false :=
        beq_eq_false_iff_ne.mpr (by rw [hf a ha]; exact (Ne.symm hne))
      have ha' : (a.documentId == id') = false :=
        beq_eq_false_iff_ne.mpr (by rw [ha]; exact (Ne.symm hne))
      simp only [List.map_cons, hba, if_true, List.find?_cons, hfa, ha', ih]
    · have hba : (a.documentId == id) = false := beq_eq_false_iff_ne.mpr ha
      simp only [List.map_cons, hba, Bool.false_eq_true, if_false, List.find?_cons, ih]

theorem get_document_upsert (s : Store) (id : String) (f : Doc → Doc)
    (hf : ∀ d, d.documentId = id → (f d).documentId = id) :
    get_document (upsert s id f) id = some (f ((get_document s id).getD (blankDoc id))) := by
  unfold get_document upsert
  by_cases h : s.any (fun d => d.documentId == id)
  · rw [if_pos h, find?_map_keyed s id f hf]
    obtain ⟨d, hd, hpd⟩ := List.any_eq_true.mp h
    have hsome : (s.find? (fun d => d.documentId == id)).isSome = true :=
      List.find?_isSome.mpr ⟨d, hd, hpd⟩
    obtain ⟨d', hfind⟩ := Option.isSome_iff_exists.mp hsome
    rw [hfind]
    rfl
  · rw [if_neg h]
    have hnone : s.find? (fun d => d.documentId == id) = none := by
      rw [List.find?_eq_none]
      intro x hx hpx
      exact h (List.any_eq_true.mpr ⟨x, hx, hpx⟩)
    have hfb : ((f (blankDoc id)).documentId == id) = true := beq_iff_eq.mpr (hf _ rfl)
    rw [List.find?_append, hnone]
    simp only [Option.none_or, List.find?_cons, hfb, Option.getD_none]

theorem get_document_upsert_ne (s : Store) (id id' : String) (f : Doc → Doc)
    (hf : ∀ d, d.documentId = id → (f d).documentId = id) (hne : id' ≠ id) :
    get_document (upsert s id f) id' = get_document s id' := by
  unfold get_document upsert
  by_cases h : s.any (fun d => d.documentId == id)
  · rw [if_pos h, find?_map_keyed_ne s id id' f hf hne]
  · rw [if_neg h]
    have hfb : ((f (blankDoc id)).documentId == id') = false :=
      beq_eq_false_iff_ne.mpr (by rw [hf _ rfl]; exact (Ne.symm hne))
    rw [List.find?_append]
    simp only [List.find?_cons, hfb, List.find?_nil, Option.or_none]

theorem putItem_eq_upsert (s : Store) (doc : Doc) :
    putItem s doc = upsert s doc.documentId (fun _ => doc) := rfl

theorem get_document_putItem_self (s : Store) (doc : Doc) :
    get_document (putItem s doc) doc.documentId = some doc := by
  rw [putItem_eq_upsert, get_document_upsert]
  intro d hd
  exact hd ▸ rfl

theorem get_document_putItem_ne (s : Store) (doc : Doc) (id : String)
    (h : id ≠ doc.documentId) :
    get_document (putItem s doc) id = get_document s id := by
  rw [putItem_eq_upsert]
  exact get_document_upsert_ne s doc.documentId id _ (fun d hd => hd ▸ rfl) h

theorem get_document_delete (s : Store) (id : String) :
    get_document (delete_document s id) id = none := by
  unfold get_document delete_document
  rw [List.find?_eq_none]
  intro x hx
  have hpx := (List.mem_filter.mp hx).2
  intro hpx'
  rw [beq_iff_eq.mp hpx'] at hpx
  simp at hpx

theorem mem_upsert {s : Store} {id : String} {f : Doc → Doc} {d' : Doc}
    (h : d' ∈ upsert s id f) :
    d' ∈ s ∨ ∃ d, (d ∈ s ∨ d = blankDoc id) ∧ d' = f d := by
  unfold upsert at h
  split at h
  · obtain ⟨d, hd, heq⟩ := List.mem_map.mp h
    by_cases hdd : (d.documentId == id) = true
    · right
      exact ⟨d, Or.inl hd, by rw [← heq, if_pos hdd]⟩
    · left
      rw [← heq, if_neg hdd]
      exact hd
  · rcases List.mem_append.mp h with h1 | h2
    · exact Or.inl h1
    · right
      exact ⟨blankDoc id, Or.inr rfl, List.mem_singleton.mp h2⟩

theorem mem_putItem {s : Store} {doc d' : Doc} (h : d' ∈ putItem s doc) :
    d' ∈ s ∨ d' = doc := by
  rw [putItem_eq_upsert] at h
  rcases mem_upsert h with h1 | ⟨d, _, rfl⟩
  · exact Or.inl h1
  · exact Or.inr rfl

theorem mem_delete {s : Store} {id : String} {d' : Doc} (h : d' ∈ delete_document s id) :
    d' ∈ s := (List.mem_filter.mp h).1

/-! Helper lemmas: the reachability invariant for the extraction state
machine. -/

theorem step_preserves_textStatusInv {s s' : Store} (hstep : Step s s')
    (hinv : textStatusInv s) : textStatusInv s' := by
  cases hstep with
  | create uid fn sk ct fs did t =>
    intro d' hd' htext
    rcases mem_putItem hd' with h | rfl
    · exact hinv d' h htext
    · simp [create_document] at htext
  | extractBeginEvent key id t h =>
    intro d' hd'
    simp only [update_document_status] at hd'
    rcases mem_upsert hd' with h1 | ⟨d, _, rfl⟩
    · exact hinv d' h1
    · intro _
      left
      simp [applyMeta, setStatus]
  | extractBeginApi id doc t hdoc hnc =>
    intro d' hd'
    simp only [update_document_status] at hd'
    rcases mem_upsert hd' with h1 | ⟨d, _, rfl⟩
    · exact hinv d' h1
    · intro _
      left
      simp [applyMeta, setStatus]
  | extractFinishOk id text wc conf t =>
    intro d' hd'
    simp only [store_extracted_text, update_document_status] at hd'
    rcases mem_upsert hd' with h1 | ⟨d, _, rfl⟩
    · exact hinv d' h1
    · intro _
      right; left
      simp [applyMeta, setStatus]
  | extractFinishErr id msg t =>
    intro d' hd'
    simp only [update_document_status] at hd'
    rcases mem_upsert hd' with h1 | ⟨d, _, rfl⟩
    · exact hinv d' h1
    · intro _
      right; right; right
      simp [applyMeta, setStatus]
  | summarize id doc summary t hdoc htext =>
    intro d' hd'
    simp only [store_summary, update_document_status] at hd'
    rcases mem_upsert hd' with h1 | ⟨d, _, rfl⟩
    · exact hinv d' h1
    · intro _
      right; right; left
      simp [applyMeta, setStatus]
  | query id doc question answer t ok hdoc htext =>
    intro d' hd'
    unfold add_query_to_history at hd'
    split at hd' <;>
    · rcases mem_upsert hd' with h1 | ⟨d, hdmem, rfl⟩
      · exact hinv d' h1
      · intro htext'
        rcases hdmem with hdmem | rfl
        · exact hinv d hdmem htext'
        · simp [blankDoc] at htext'
  | delete id doc hdoc =>
    intro d' hd'
    exact hinv d' (mem_delete hd')

/-- The concrete five-step run of `cexC5s5` is reachable. -/
theorem cexC5_reachable : Reachable cexC5s5 := by
  have r1 : Reachable cexC5s1 :=
    Reachable.step _ _ Reachable.init
      (Step.create [] "u1" "f.pdf" "k1" "application/pdf" 10 "d1" "t0")
  have r2 : Reachable cexC5s2 :=
    Reachable.step _ _ r1
      (Step.extractBeginApi cexC5s1 "d1"
        (create_document "u1" "f.pdf" "k1" "application/pdf" 10 "d1" "t0") "t1"
        (by decide) (by decide))
  have r3 : Reachable cexC5s3 :=
    Reachable.step _ _ r2 (Step.extractFinishOk cexC5s2 "d1" "hello world" 2 0 "t2")
  have r4 : Reachable cexC5s4 :=
    Reachable.step _ _ r3
      (Step.summarize cexC5s3 "d1" ((get_document cexC5s3 "d1").getD (blankDoc "d1"))
        "a summary" "t3" (by rfl) (by decide))
  exact Reachable.step _ _ r4
    (Step.extractBeginApi cexC5s4 "d1" ((get_document cexC5s4 "d1").getD (blankDoc "d1"))
      "t4" (by rfl) (by decide))

/-! Claim theorems. -/

/-- C1: for the key `documents/u1/2024/01/15/doc-42/report.pdf` — exactly the
documented layout, as issued by the upload-slot operation — `handle_s3_event`
derives `parts[3]`, which is the month segment `01`, not the documentId
segment `doc-42`: processing the event leaves the record doc-42 untouched and
upserts a spurious record keyed `01` instead. -/
theorem C1_s3_key_derivation_bug :
    cexC1Key = "documents/u1/2024/01/15/doc-42/report.pdf"
    ∧ deriveDocumentId cexC1Key = some "01"
    ∧ "01" ≠ "doc-42"
    ∧ get_document cexC1Store2 "doc-42" = get_document cexC1Store "doc-42"
    ∧ (get_document cexC1Store2 "01").isSome = true := by decide

/-- C2: on a record with one prior history entry, `add_query_to_history`
appends at the end when the atomic `list_append` succeeds, but when it fails
the fallback overwrites the history with a singleton, discarding the prior
entry — contradicting the append-only claim. -/
theorem C2_history_fallback_discards_prior :
    (get_document (add_query_to_history cexC2Store "d1" "q2" "a2" "t2" true) "d1").map
        (fun d => d.queryHistory)
      = some (some [{ question := "q1", answer := "a1", timestamp := "t1" },
          { question := "q2", answer := "a2", timestamp := "t2" }])
    ∧ (get_document (add_query_to_history cexC2Store "d1" "q2" "a2" "t2" false) "d1").map
        (fun d => d.queryHistory)
      = some (some [{ question := "q2", answer := "a2", timestamp := "t2" }]) := by decide

/-- C5 (counterexample): after create, extract, summarize, and the PROCESSING
write of a second extraction request — a run of the program's operations — the
record has `extractedText` present while its status is PROCESSING, so the
claimed invariant `extractedText present ⇒ status ∈ {EXTRACTED, COMPLETED}`
fails on a reachable store. -/
theorem C5_counterexample :
    Reachable cexC5s5 ∧ ¬ textImpliesExtractedOrCompleted cexC5s5 :=
  ⟨cexC5_reachable, by unfold textImpliesExtractedOrCompleted; decide⟩

/-- C5 (amended): in every reachable store, a present `extractedText` implies
a status among PROCESSING, EXTRACTED, COMPLETED, FAILED — that is, any status
except the initial UPLOADED.  The original claim must be widened because the
PROCESSING write of a re-extraction and a FAILED transition never clear the
text attribute. -/
theorem C5_text_status_invariant (s : Store) (h : Reachable s) : textStatusInv s := by
  induction h with
  | init => intro d hd; simp at hd
  | step s s' hr hstep ih => exact step_preserves_textStatusInv hstep ih

/-- C5 (witness): the amended invariant evaluated on the concrete reachable
store of the five-step run. -/
theorem C5_witness : textStatusInv cexC5s5 :=
  C5_text_status_invariant cexC5s5 cexC5_reachable

/-- C6: `store_extracted_text` sets status EXTRACTED and persists the first
50000 characters of the text, the word count, the string form of the numeric
confidence, and the character count of the full untruncated text. -/
theorem C6_store_extracted_text_fields (store : Store) (document_id text : String)
    (word_count : Nat) (confidence : ℚ) (t : String) :
    (get_document (store_extracted_text store document_id text word_count confidence t)
        document_id).map
        (fun d => (d.status, d.extractedText, d.wordCount, d.ocrConfidence, d.textLength))
      = some (some "EXTRACTED", some (pyTake text 50000), some word_count,
          some (pyStr confidence), some text.length) := by
  unfold store_extracted_text update_document_status
  rw [get_document_upsert]
  · simp [applyMeta, setStatus]
  · intro d hd
    simp [applyMeta, setStatus, hd]

/-- C3 (counterexample): on a document owned by alice, a question request
whose resolved identity is mallory — neither the owner nor `anonymous` — is
answered with 200, the Bedrock adapter is invoked and the record is modified,
instead of the claimed 403 with no adapter call and no modification: query.py
performs no ownership check at all. -/
theorem C3_counterexample :
    get_user_id cexC3Event.identity = "mallory"
    ∧ (get_document cexC3Store "d1").map (fun d => d.userId) = some (some "alice")
    ∧ (query_lambda_handler cexC3Store cexC3Event (fun _ _ => ⟨"ans", "high"⟩) "t2" true).code
        = 200
    ∧ (query_lambda_handler cexC3Store cexC3Event (fun _ _ => ⟨"ans", "high"⟩) "t2" true).llmCalled
        = true
    ∧ (query_lambda_handler cexC3Store cexC3Event (fun _ _ => ⟨"ans", "high"⟩) "t2" true).store
        ≠ cexC3Store := by decide

/-- C3 (amended): the query handler performs no ownership check: its result is
independent of the caller identity carried by the event, it never returns 403,
and on any existing document with truthy extracted text and a valid question
it invokes the LLM adapter and answers with 200 regardless of who asks. -/
theorem C3_query_handler_no_ownership_check :
    (∀ (store : Store) (e : QueryEvent) (llm : String → String → LlmAnswer)
        (t : String) (ok : Bool) (idnA idnB : Identity),
        query_lambda_handler store { e with identity := idnA } llm t ok
          = query_lambda_handler store { e with identity := idnB } llm t ok)
    ∧ (∀ (store : Store) (e : QueryEvent) (llm : String → String → LlmAnswer)
        (t : String) (ok : Bool),
        (query_lambda_handler store e llm t ok).code ≠ 403)
    ∧ (∀ (store : Store) (e : QueryEvent) (llm : String → String → LlmAnswer)
        (t : String) (ok : Bool) (doc : Doc),
        truthy e.documentId = true → e.bodyValid = true →
        (pyStrip (e.question.getD "") == "") = false →
        (pyStrip (e.question.getD "")).length ≤ 1000 →
        get_document store (e.documentId.getD "") = some doc →
        truthy doc.extractedText = true →
        (query_lambda_handler store e llm t ok).code = 200
          ∧ (query_lambda_handler store e llm t ok).llmCalled = true) := by
  refine ⟨?_, ?_, ?_⟩
  · intro store e llm t ok idnA idnB
    rfl
  · intro store e llm t ok h
    unfold query_lambda_handler at h
    dsimp only at h
    repeat' split at h
    all_goals simp at h
  · intro store e llm t ok doc h1 h2 h3 h4 h5 h6
    have h4' : ¬ ((pyStrip (e.question.getD "")).length > 1000) := by omega
    simp [query_lambda_handler, h1, h2, h3, h4', h5, h6]

/-- C3 (witness): the amended statement evaluated at the concrete non-owner
request. -/
theorem C3_witness :
    (query_lambda_handler cexC3Store cexC3Event (fun _ _ => ⟨"ans", "high"⟩) "t2" true).code
        = 200
    ∧ (query_lambda_handler cexC3Store cexC3Event (fun _ _ => ⟨"ans", "high"⟩) "t2" true).llmCalled
        = true :=
  C3_query_handler_no_ownership_check.2.2 cexC3Store cexC3Event (fun _ _ => ⟨"ans", "high"⟩)
    "t2" true
    { documentId := "d1", userId := some "alice", status := some "EXTRACTED",
      extractedText := some "hello" }
    (by decide) rfl (by decide) (by decide) (by decide) (by decide)

/-- C9: whenever the question of a well-formed request body is empty after
trimming or longer than 1000 characters after trimming, the query handler
returns 400, invokes no adapter and leaves the store unchanged. -/
theorem C9_question_validation (store : Store) (e : QueryEvent)
    (llm : String → String → LlmAnswer) (t : String) (ok : Bool)
    (hbody : e.bodyValid = true)
    (hq : pyStrip (e.question.getD "") = "" ∨ (pyStrip (e.question.getD "")).length > 1000) :
    (query_lambda_handler store e llm t ok).code = 400
    ∧ (query_lambda_handler store e llm t ok).llmCalled = false
    ∧ (query_lambda_handler store e llm t ok).store = store := by
  unfold query_lambda_handler
  by_cases hdoc : truthy e.documentId = false
  · simp [hdoc]
  · have hdoc' : truthy e.documentId = true := by
      revert hdoc; cases truthy e.documentId <;> simp
    rcases hq with hq | hq
    · simp [hdoc', hbody, hq]
    · have hq' : (pyStrip (e.question.getD "") == "") = false := by
        rw [beq_eq_false_iff_ne]
        intro h
        rw [h] at hq
        simp at hq
      simp [hdoc', hbody, hq', hq]

/-- C9 (witness): the validation evaluated on a whitespace-only question. -/
theorem C9_witness :
    (query_lambda_handler [] cexC9Event (fun _ _ => ⟨"a", "high"⟩) "t" true).code = 400
    ∧ (query_lambda_handler [] cexC9Event (fun _ _ => ⟨"a", "high"⟩) "t" true).llmCalled = false
    ∧ (query_lambda_handler [] cexC9Event (fun _ _ => ⟨"a", "high"⟩) "t" true).store = [] :=
  C9_question_validation [] cexC9Event (fun _ _ => ⟨"a", "high"⟩) "t" true rfl
    (Or.inl (by decide))

/-- C10: for an authorized delete of an existing document, the handler result
does not depend on the blob-deletion outcome (failure or the blob being
absent is swallowed), the metadata record is deleted unconditionally, and the
handler returns 200. -/
theorem C10_delete_swallows_blob_failure (store : Store) (documentId : Option String)
    (idn : Identity) (doc : Doc)
    (hid : truthy documentId = true)
    (hdoc : get_document store (documentId.getD "") = some doc)
    (hown : (doc.userId != some (get_user_id idn) && get_user_id idn != "anonymous") = false) :
    ∀ okA okB : Bool,
      delete_document_handler store documentId idn okA
        = delete_document_handler store documentId idn okB
      ∧ (delete_document_handler store documentId idn okA).code = 200
      ∧ (delete_document_handler store documentId idn okA).store
          = delete_document store (documentId.getD "")
      ∧ get_document (delete_document_handler store documentId idn okA).store
          (documentId.getD "") = none := by
  intro okA okB
  unfold delete_document_handler
  simp [hid, hdoc, hown, get_document_delete]

/-- C10 (witness): the delete behaviour evaluated on a concrete owned
document for both blob outcomes. -/
theorem C10_witness :
    delete_document_handler cexC10Store (some "d9") { headerUserId := some "u9" } false
      = delete_document_handler cexC10Store (some "d9") { headerUserId := some "u9" } true
    ∧ (delete_document_handler cexC10Store (some "d9") { headerUserId := some "u9" } false).code
        = 200
    ∧ (delete_document_handler cexC10Store (some "d9") { headerUserId := some "u9" } false).store
        = delete_document cexC10Store "d9"
    ∧ get_document
        (delete_document_handler cexC10Store (some "d9") { headerUserId := some "u9" } false).store
        "d9" = none :=
  C10_delete_swallows_blob_failure cexC10Store (some "d9") { headerUserId := some "u9" }
    { documentId := "d9", userId := some "u9", s3Key := some "k9", status := some "UPLOADED" }
    (by decide) (by decide) (by decide) false true

/-- C4: the documentId supplied in the finalize-upload body is ignored by
`create_document`: two requests differing only in that field behave
identically; for every validated request the stored record carries the
freshly generated identifier; and two finalize calls with identical inputs
but distinct fresh identifiers (uuid4 freshness) leave two distinct records
in the table rather than overwriting one. -/
theorem C4_finalize_generates_fresh_id :
    (∀ (store : Store) (e : UploadEvent) (s3x : String → Bool) (did t x y : String),
        x ≠ "" → y ≠ "" →
        handle_upload_request store
            { e with body := { e.body with documentId := some x } } s3x did t
          = handle_upload_request store
              { e with body := { e.body with documentId := some y } } s3x did t)
    ∧ (∀ (store : Store) (e : UploadEvent) (s3x : String → Bool) (did t : String),
        e.bodyValid = true →
        truthy e.body.documentId = true → truthy e.body.s3Key = true →
        truthy e.body.filename = true →
        s3x (e.body.s3Key.getD "") = true →
        (handle_upload_request store e s3x did t).code = 201
        ∧ (handle_upload_request store e s3x did t).document.map (fun d => d.documentId)
            = some did
        ∧ get_document (handle_upload_request store e s3x did t).store did
            = some (create_document (get_user_id e.identity) (e.body.filename.getD "")
                (e.body.s3Key.getD "") (e.body.contentType.getD "application/pdf")
                (e.body.fileSize.getD 0) did t))
    ∧ (∀ (store : Store) (e : UploadEvent) (s3x : String → Bool) (did₁ did₂ t₁ t₂ : String),
        e.bodyValid = true →
        truthy e.body.documentId = true → truthy e.body.s3Key = true →
        truthy e.body.filename = true →
        s3x (e.body.s3Key.getD "") = true →
        did₁ ≠ did₂ →
        get_document (handle_upload_request
            (handle_upload_request store e s3x did₁ t₁).store e s3x did₂ t₂).store did₁
          = some (create_document (get_user_id e.identity) (e.body.filename.getD "")
              (e.body.s3Key.getD "") (e.body.contentType.getD "application/pdf")
              (e.body.fileSize.getD 0) did₁ t₁)
        ∧ get_document (handle_upload_request
            (handle_upload_request store e s3x did₁ t₁).store e s3x did₂ t₂).store did₂
          = some (create_document (get_user_id e.identity) (e.body.filename.getD "")
              (e.body.s3Key.getD "") (e.body.contentType.getD "application/pdf")
              (e.body.fileSize.getD 0) did₂ t₂)
        ∧ create_document (get_user_id e.identity) (e.body.filename.getD "")
              (e.body.s3Key.getD "") (e.body.contentType.getD "application/pdf")
              (e.body.fileSize.getD 0) did₁ t₁
            ≠ create_document (get_user_id e.identity) (e.body.filename.getD "")
                (e.body.s3Key.getD "") (e.body.contentType.getD "application/pdf")
                (e.body.fileSize.getD 0) did₂ t₂) := by
  refine ⟨?_, ?_, ?_⟩
  · intro store e s3x did t x y hx hy
    obtain ⟨bv, ⟨bid, bsk, bfn, bct, bfs⟩, idn⟩ := e
    simp only [handle_upload_request, truthy]
    have hx' : (x != "") = true := bne_iff_ne.mpr hx
    have hy' : (y != "") = true := bne_iff_ne.mpr hy
    rw [hx', hy']
  · intro store e s3x did t h1 h2 h3 h4 h5
    unfold handle_upload_request
    simp only [h1, h2, h3, h4, h5, Bool.true_eq_false, if_false, Bool.and_self,
      Bool.not_true, Bool.false_eq_true]
    refine ⟨by trivial, by trivial, ?_⟩
    have := get_document_putItem_self store
      (create_document (get_user_id e.identity) (e.body.filename.getD "")
        (e.body.s3Key.getD "") (e.body.contentType.getD "application/pdf")
        (e.body.fileSize.getD 0) did t)
    exact this
  · intro store e s3x did₁ did₂ t₁ t₂ h1 h2 h3 h4 h5 hne
    unfold handle_upload_request
    simp only [h1, h2, h3, h4, h5, Bool.true_eq_false, if_false, Bool.and_self,
      Bool.not_true, Bool.false_eq_true]
    refine ⟨?_, ?_, ?_⟩
    · rw [get_document_putItem_ne _ _ _ hne]
      exact get_document_putItem_self store _
    · exact get_document_putItem_self _ _
    · intro hcontr
      exact hne (congrArg Doc.documentId hcontr)

/-- C4 (witness): two finalize calls on the concrete request carrying the
issued identifier leave two distinct records keyed by the fresh
identifiers. -/
theorem C4_witness :
    get_document (handle_upload_request
        (handle_upload_request [] cexC4Event (fun _ => true) "fresh-1" "t1").store
        cexC4Event (fun _ => true) "fresh-2" "t2").store "fresh-1"
      = some (create_document "u1" "f.pdf" "k1" "application/pdf" 2048 "fresh-1" "t1")
    ∧ get_document (handle_upload_request
        (handle_upload_request [] cexC4Event (fun _ => true) "fresh-1" "t1").store
        cexC4Event (fun _ => true) "fresh-2" "t2").store "fresh-2"
      = some (create_document "u1" "f.pdf" "k1" "application/pdf" 2048 "fresh-2" "t2")
    ∧ create_document "u1" "f.pdf" "k1" "application/pdf" 2048 "fresh-1" "t1"
      ≠ create_document "u1" "f.pdf" "k1" "application/pdf" 2048 "fresh-2" "t2" :=
  C4_finalize_generates_fresh_id.2.2 [] cexC4Event (fun _ => true) "fresh-1" "fresh-2"
    "t1" "t2" rfl (by decide) (by decide) (by decide) rfl (by decide)

/-- C7 (counterexample): on a record with status EXTRACTED and `extractedText`
present but empty, a synchronous extraction request does not take the cached
path: it re-invokes OCR, returns `cached: false` and performs status updates,
because the code tests Python truthiness rather than presence. -/
theorem C7_counterexample :
    (get_document cexC7Store "d1").map (fun d => (d.status, d.extractedText))
      = some (some "EXTRACTED", some "")
    ∧ (handle_api_request cexC7Store (some "d1")
        (fun _ => OcrOutcome.ok "hi" 1 0) "t1" "t2").cached = some false
    ∧ (handle_api_request cexC7Store (some "d1")
        (fun _ => OcrOutcome.ok "hi" 1 0) "t1" "t2").ocrCalled = true
    ∧ (handle_api_request cexC7Store (some "d1")
        (fun _ => OcrOutcome.ok "hi" 1 0) "t1" "t2").store ≠ cexC7Store := by decide

/-- Helper: the record written by `store_extracted_text` has status
EXTRACTED. -/
theorem store_extracted_text_status (store : Store) (id text : String) (wc : Nat)
    (conf : ℚ) (t : String) :
    (get_document (store_extracted_text store id text wc conf t) id).map (fun d => d.status)
      = some (some "EXTRACTED") := by
  unfold store_extracted_text update_document_status
  rw [get_document_upsert]
  · simp [applyMeta, setStatus]
  · intro d hd
    simp [applyMeta, setStatus, hd]

/-- C7 (amended): synchronous extraction short-circuits exactly when the
status is EXTRACTED and the stored text is present and non-empty (Python
truthiness), returning the stored text, word count and parsed confidence with
`cached: true`, no store change and no OCR call; for every other existing
document it writes PROCESSING and then either EXTRACTED with the OCR result
(`cached: false`) or FAILED with the error message attached.  The original
claim must be narrowed because a present-but-empty text is re-extracted. -/
theorem C7_extract_api_behaviour :
    (∀ (store : Store) (documentId : Option String) (ocr : String → OcrOutcome)
        (t1 t2 : String) (doc : Doc) (text : String) (wc : Nat) (c : ℚ),
        truthy documentId = true →
        get_document store (documentId.getD "") = some doc →
        doc.status = some "EXTRACTED" → doc.extractedText = some text → text ≠ "" →
        doc.wordCount = some wc → doc.ocrConfidence = some (pyStr c) →
        handle_api_request store documentId ocr t1 t2
          = { code := 200, documentId := some (documentId.getD ""), text := some text,
              wordCount := some wc, confidence := some c, cached := some true,
              store := store, ocrCalled := false })
    ∧ (∀ (store : Store) (documentId : Option String) (ocr : String → OcrOutcome)
        (t1 t2 : String) (doc : Doc) (s3k text : String) (wc : Nat) (c : ℚ),
        truthy documentId = true →
        get_document store (documentId.getD "") = some doc →
        (doc.status == some "EXTRACTED" && truthy doc.extractedText) = false →
        doc.s3Key = some s3k → ocr s3k = OcrOutcome.ok text wc c →
        handle_api_request store documentId ocr t1 t2
          = { code := 200, documentId := some (documentId.getD ""), text := some text,
              wordCount := some wc, confidence := some c, cached := some false,
              store := store_extracted_text
                (update_document_status store (documentId.getD "") "PROCESSING" [] t1)
                (documentId.getD "") text wc c t2,
              ocrCalled := true }
        ∧ (get_document (handle_api_request store documentId ocr t1 t2).store
              (documentId.getD "")).map (fun d => d.status) = some (some "EXTRACTED"))
    ∧ (∀ (store : Store) (documentId : Option String) (ocr : String → OcrOutcome)
        (t1 t2 : String) (doc : Doc) (s3k msg : String),
        truthy documentId = true →
        get_document store (documentId.getD "") = some doc →
        (doc.status == some "EXTRACTED" && truthy doc.extractedText) = false →
        doc.s3Key = some s3k → ocr s3k = OcrOutcome.err msg →
        handle_api_request store documentId ocr t1 t2
          = { code := 500, error := some "Text extraction failed", message := some msg,
              store := update_document_status
                (update_document_status store (documentId.getD "") "PROCESSING" [] t1)
                (documentId.getD "") "FAILED" [MetaField.errorMessage msg] t2,
              ocrCalled := true }
        ∧ (get_document (handle_api_request store documentId ocr t1 t2).store
              (documentId.getD "")).map (fun d => (d.status, d.errorMessage))
            = some (some "FAILED", some msg)) := by
  refine ⟨?_, ?_, ?_⟩
  · intro store documentId ocr t1 t2 doc text wc c hid hdoc hst htext hne hwc hconf
    have htruthy : truthy (some text) = true := by
      simp [truthy, hne]
    simp [handle_api_request, hid, hdoc, hst, htext, htruthy, hwc, hconf, pyFloat_pyStr]
  · intro store documentId ocr t1 t2 doc s3k text wc c hid hdoc hnc hs3 hocr
    have heq : handle_api_request store documentId ocr t1 t2
        = { code := 200, documentId := some (documentId.getD ""), text := some text,
            wordCount := some wc, confidence := some c, cached := some false,
            store := store_extracted_text
              (update_document_status store (documentId.getD "") "PROCESSING" [] t1)
              (documentId.getD "") text wc c t2,
            ocrCalled := true } := by
      simp [handle_api_request, hid, hdoc, hnc, hs3, hocr]
    refine ⟨heq, ?_⟩
    rw [heq]
    exact store_extracted_text_status _ _ _ _ _ _
  · intro store documentId ocr t1 t2 doc s3k msg hid hdoc hnc hs3 hocr
    have heq : handle_api_request store documentId ocr t1 t2
        = { code := 500, error := some "Text extraction failed", message := some msg,
            store := update_document_status
              (update_document_status store (documentId.getD "") "PROCESSING" [] t1)
              (documentId.getD "") "FAILED" [MetaField.errorMessage msg] t2,
            ocrCalled := true } := by
      simp [handle_api_request, hid, hdoc, hnc, hs3, hocr]
    refine ⟨heq, ?_⟩
    rw [heq]
    show (get_document (update_document_status _ _ "FAILED" _ t2) _).map _ = _
    unfold update_document_status
    rw [get_document_upsert]
    · simp [applyMeta, setStatus]
    · intro d hd
      simp [applyMeta, setStatus, hd]

/-- C7 (witness): the cached path evaluated on a concrete extracted record;
the OCR adapter is the error stub, so the 200 response shows it was not
consulted. -/
theorem C7_witness :
    handle_api_request cexC7CachedStore (some "c1") (fun _ => OcrOutcome.err "x") "t1" "t2"
      = { code := 200, documentId := some "c1", text := some "hello",
          wordCount := some 2, confidence := some 99, cached := some true,
          store := cexC7CachedStore, ocrCalled := false } :=
  C7_extract_api_behaviour.1 cexC7CachedStore (some "c1") (fun _ => OcrOutcome.err "x")
    "t1" "t2"
    { documentId := "c1", status := some "EXTRACTED", extractedText := some "hello",
      wordCount := some 2, ocrConfidence := some (pyStr 99) }
    "hello" 2 99 (by decide) rfl rfl rfl (by decide) rfl rfl

/-- C8 (counterexample): a record whose stored summary is the empty string is
re-summarized with an adapter call and `cached: false`; and a record with a
summary present but no extracted text is answered 400 without returning the
stored summary — the claim as stated fails on both. -/
theorem C8_counterexample :
    (summarize_lambda_handler cexC8StoreA { documentId := some "d1" }
        (fun _ _ => "new summary") (fun _ => "") (fun _ => []) "t1").llmCalled = true
    ∧ (summarize_lambda_handler cexC8StoreA { documentId := some "d1" }
        (fun _ _ => "new summary") (fun _ => "") (fun _ => []) "t1").cached = some false
    ∧ (get_document cexC8StoreA "d1").map (fun d => d.summary) = some (some "")
    ∧ (summarize_lambda_handler cexC8StoreB { documentId := some "d2" }
        (fun _ _ => "new summary") (fun _ => "") (fun _ => []) "t1").code = 400
    ∧ (summarize_lambda_handler cexC8StoreB { documentId := some "d2" }
        (fun _ _ => "new summary") (fun _ => "") (fun _ => []) "t1").summary = none
    ∧ (get_document cexC8StoreB "d2").map (fun d => d.summary)
        = some (some "a summary") := by decide

/-- C8 (amended): for a record with non-empty extracted text and a non-empty
stored summary, a summarize request with neither flag returns the stored
summary with `cached: true`, no adapter call and no store change; and when no
truthy summary is stored yet, a first no-flag call generates and persists one
(`cached: false`) and, provided that generated summary is non-empty, an
immediately following no-flag call returns it unchanged with `cached: true`
and no adapter call.  The original claim must be narrowed to non-empty
summaries and documents with extracted text present. -/
theorem C8_summarize_cached :
    (∀ (store : Store) (e : SummarizeEvent) (llms : String → Nat → String)
        (llme : String → String) (llmq : String → List String) (t : String)
        (doc : Doc) (s₀ : String),
        truthy e.documentId = true →
        get_document store (e.documentId.getD "") = some doc →
        truthy doc.extractedText = true →
        doc.summary = some s₀ → s₀ ≠ "" →
        e.entities = false → e.questions = false →
        summarize_lambda_handler store e llms llme llmq t
          = { code := 200, documentId := some (e.documentId.getD ""), summary := some s₀,
              cached := some true, store := store, llmCalled := false })
    ∧ (∀ (store : Store) (e : SummarizeEvent) (llms : String → Nat → String)
        (llme : String → String) (llmq : String → List String) (t₁ t₂ : String)
        (doc : Doc),
        truthy e.documentId = true →
        get_document store (e.documentId.getD "") = some doc →
        truthy doc.extractedText = true →
        truthy doc.summary = false →
        e.entities = false → e.questions = false →
        llms (doc.extractedText.getD "") e.maxLength ≠ "" →
        (summarize_lambda_handler store e llms llme llmq t₁).cached = some false
        ∧ (summarize_lambda_handler store e llms llme llmq t₁).summary
            = some (llms (doc.extractedText.getD "") e.maxLength)
        ∧ summarize_lambda_handler (summarize_lambda_handler store e llms llme llmq t₁).store
            e llms llme llmq t₂
          = { code := 200, documentId := some (e.documentId.getD ""),
              summary := some (llms (doc.extractedText.getD "") e.maxLength),
              cached := some true,
              store := (summarize_lambda_handler store e llms llme llmq t₁).store,
              llmCalled := false }) := by
  constructor
  · intro store e llms llme llmq t doc s₀ hid hdoc htext hsum0 hne he hq
    have hsum' : truthy (some s₀) = true := by simp [truthy, hne]
    simp [summarize_lambda_handler, hid, hdoc, htext, hsum0, hsum', he, hq]
  · intro store e llms llme llmq t₁ t₂ doc hid hdoc htext hsumf he hq hs
    have heq1 : summarize_lambda_handler store e llms llme llmq t₁
        = { code := 200, documentId := some (e.documentId.getD ""),
            summary := some (llms (doc.extractedText.getD "") e.maxLength),
            wordCount := some (doc.wordCount.getD 0), cached := some false,
            entities := none, suggestedQuestions := none,
            store := store_summary store (e.documentId.getD "")
              (llms (doc.extractedText.getD "") e.maxLength) t₁,
            llmCalled := true } := by
      simp [summarize_lambda_handler, hid, hdoc, htext, hsumf, he, hq]
    have hget : get_document (store_summary store (e.documentId.getD "")
          (llms (doc.extractedText.getD "") e.maxLength) t₁) (e.documentId.getD "")
        = some { doc with
                 status := some "COMPLETED"
                 updatedAt := some t₁
                 summary := some (llms (doc.extractedText.getD "") e.maxLength) } := by
      unfold store_summary update_document_status
      rw [get_document_upsert]
      · rw [hdoc]
        simp [applyMeta, setStatus]
      · intro d hd
        simp [applyMeta, setStatus, hd]
    have hs' : truthy (some (llms (doc.extractedText.getD "") e.maxLength)) = true := by
      simp [truthy, hs]
    refine ⟨by rw [heq1], by rw [heq1], ?_⟩
    rw [heq1]
    simp [summarize_lambda_handler, hid, hget, htext, hs', he, hq]

/-- C8 (witness): the cached path evaluated on a concrete record with a
non-empty stored summary. -/
theorem C8_witness :
    summarize_lambda_handler cexC8WStore { documentId := some "d3" } (fun _ _ => "x")
        (fun _ => "") (fun _ => []) "t1"
      = { code := 200, documentId := some "d3", summary := some "old summary",
          cached := some true, store := cexC8WStore, llmCalled := false } :=
  C8_summarize_cached.1 cexC8WStore { documentId := some "d3" } (fun _ _ => "x")
    (fun _ => "") (fun _ => []) "t1"
    { documentId := "d3", status := some "COMPLETED", extractedText := some "hello",
      summary := some "old summary" }
    "old summary" (by decide) rfl (by decide) rfl (by decide) rfl rfl
